import Mathlib

/-!
Verification of the Met Mini Gallery sketch (src/sketch.js).

The sketch's numeric values are JavaScript numbers used here only on exact
grid arithmetic, embedded as `ℚ`.  Global mutable state (`loading`, `errMsg`,
`items`) becomes an explicit `SessionState`; the network and image loader
become an explicit oracle `Env` describing the responses a run observes.
-/

/-- Constant `MAX_ITEMS = 18` (sketch.js line 13). -/
def MAX_ITEMS : Nat := 18

/-- Constant `GRID_COLS = 6` (sketch.js line 14). -/
def GRID_COLS : Nat := 6

/-- Constant `PAD = 20` (sketch.js line 15). -/
def PAD : ℚ := 20

/-- Constant `GAP = 10` (sketch.js line 16). -/
def GAP : ℚ := 10

/-- Canvas width from `createCanvas(900, 560)` (sketch.js line 21). -/
def canvasW : ℚ := 900

/-- Canvas height from `createCanvas(900, 560)` (sketch.js line 21). -/
def canvasH : ℚ := 560

/-- A detail record returned by `fetchObject` (sketch.js lines 172-178). -/
structure DetailRecord where
  objectID : Nat
  title : String
  artist : String
  date : String
  imageUrl : String
  deriving Repr, DecidableEq

/-- An element of the global `items` array:
`{ objectID, title, artist, date, imageUrl, img, x, y, w, h }` (sketch.js line 11).
A loaded p5 image handle is abstracted to a `Nat` tag; `none` is the `null`
produced when loading failed. -/
structure Tile where
  objectID : Nat
  title : String
  artist : String
  date : String
  imageUrl : String
  img : Option Nat
  x : ℚ
  y : ℚ
  w : ℚ
  h : ℚ
  deriving Repr, DecidableEq

/-- `rows = ceil(items.length / cols)` (sketch.js line 198), as a function of
the item count. -/
def rowsOf (n : Nat) : Nat := ⌈(n : ℚ) / (GRID_COLS : ℚ)⌉₊

/-- `tileW = (usableW - GAP * (cols - 1)) / cols` with
`usableW = width - PAD * 2` (sketch.js lines 200, 203). -/
def tileW : ℚ := ((canvasW - PAD * 2) - GAP * ((GRID_COLS : ℚ) - 1)) / (GRID_COLS : ℚ)

/-- `tileH = (usableH - GAP * (rows - 1)) / rows` with
`usableH = height - PAD * 2` (sketch.js lines 201, 204), as a function of the
item count. -/
def tileH (n : Nat) : ℚ :=
  ((canvasH - PAD * 2) - GAP * ((rowsOf n : ℚ) - 1)) / (rowsOf n : ℚ)

/-- `items[i].x = PAD + col * (tileW + GAP)` with `col = i % cols`
(sketch.js lines 207, 210). -/
def tileX (i : Nat) : ℚ := PAD + ((i % GRID_COLS : Nat) : ℚ) * (tileW + GAP)

/-- `items[i].y = PAD + row * (tileH + GAP)` with `row = floor(i / cols)`
(sketch.js lines 208, 211). -/
def tileY (n i : Nat) : ℚ := PAD + ((i / GRID_COLS : Nat) : ℚ) * (tileH n + GAP)

/-- The assignment the loop body of `layoutGrid` performs on `items[i]`
(sketch.js lines 210-213), for item count `n`. -/
def place (n i : Nat) (it : Tile) : Tile :=
  { it with x := tileX i, y := tileY n i, w := tileW, h := tileH n }

/-- The `for` loop of `layoutGrid` (sketch.js lines 206-214): index `i` runs
over the list, each element receiving the bounds computed from `n`. -/
def layoutAux (n : Nat) : Nat → List Tile → List Tile
  | _, [] => []
  | i, it :: rest => place n i it :: layoutAux n (i + 1) rest

/-- `layoutGrid` (sketch.js lines 195-215): recompute every item's bounds from
the fixed canvas geometry and the current item count. -/
def layoutGrid (items : List Tile) : List Tile :=
  layoutAux items.length 0 items

/-- The hover condition of `getHoveredItem` (sketch.js line 219):
`mx >= it.x && mx <= it.x + it.w && my >= it.y && my <= it.y + it.h`. -/
def hits (it : Tile) (mx my : ℚ) : Prop :=
  mx ≥ it.x ∧ mx ≤ it.x + it.w ∧ my ≥ it.y ∧ my ≤ it.y + it.h

instance (it : Tile) (mx my : ℚ) : Decidable (hits it mx my) := by
  unfold hits; infer_instance

/-- `getHoveredItem` (sketch.js lines 217-224): scan `items` in order and
return the first item whose rectangle contains the pointer, else `null`. -/
def getHoveredItem (items : List Tile) (mx my : ℚ) : Option Tile :=
  match items with
  | [] => none
  | it :: rest => if hits it mx my then some it else getHoveredItem rest mx my

/-- The global session state: `loading` (line 8), `errMsg` (line 9),
`items` (line 11), plus the DOM status text set by `setStatus`. -/
structure SessionState where
  loading : Bool
  errMsg : Option String
  items : List Tile
  status : String
  deriving Repr, DecidableEq

/-- The coarse phase the draw loop renders (sketch.js lines 47-58): a loading
message while `loading`, the error message if `errMsg` is set, otherwise the
ready rendering (grid, or the empty-state message when `items` is empty). -/
inductive Phase where
  | Idle
  | Loading
  | Ready
  | Error
  deriving Repr, DecidableEq

/-- Phase read off a session state, in the branch order of `draw`. -/
def phaseOf (s : SessionState) : Phase :=
  if s.loading then .Loading else if s.errMsg.isSome then .Error else .Ready

/-- `mousePressed` (sketch.js lines 77-84): hit-test at the pointer and, on a
hit, open the Met page URL for that object.  The model returns the URL that
would be opened, `none` when nothing is hovered.  There is no guard on
`loading` or on the phase. -/
def mousePressed (s : SessionState) (mx my : ℚ) : Option String :=
  match getHoveredItem s.items mx my with
  | some hover => some ("https://www.metmuseum.org/art/collection/search/" ++ toString hover.objectID)
  | none => none

/-- Parsed JSON body of a detail response (fields read at sketch.js
lines 169, 173-176). -/
structure DetailJson where
  objectID : Nat
  title : String
  artistDisplayName : String
  objectDate : String
  primaryImageSmall : String
  deriving Repr, DecidableEq

/-- Outcome of one detail request observed by `fetchObject`: `fail` covers a
non-ok HTTP status, a transport rejection, or a JSON parse failure (all of
which make `fetchObject` return `null`); `ok d` is a parsed body.  An absent
or empty string field of the body is modelled as `""` (both are falsy under
JavaScript `||`). -/
inductive FetchOutcome where
  | fail
  | ok (d : DetailJson)

/-- `fetchObject` (sketch.js lines 160-182): `null` on any failure; accept
only bodies with a non-empty `primaryImageSmall`; default title, artist and
date with `||`. -/
def fetchObject (detail : Nat → FetchOutcome) (objectID : Nat) : Option DetailRecord :=
  match detail objectID with
  | .fail => none
  | .ok d =>
    let imgUrl := d.primaryImageSmall
    if imgUrl = "" then none
    else
      some { objectID := d.objectID,
             title := if d.title = "" then "(untitled)" else d.title,
             artist := if d.artistDisplayName = "" then "(unknown artist)" else d.artistDisplayName,
             date := d.objectDate,
             imageUrl := imgUrl }

/-- The detail loop of `searchMet` (sketch.js lines 123-127):
`for (let i = 0; i < ids.length && picked.length < MAX_ITEMS; i++)`, pushing
each non-null `fetchObject` result. -/
def pickLoop (detail : Nat → FetchOutcome) : List Nat → List DetailRecord → List DetailRecord
  | [], picked => picked
  | id :: rest, picked =>
    if picked.length < MAX_ITEMS then
      match fetchObject detail id with
      | some obj => pickLoop detail rest (picked ++ [obj])
      | none => pickLoop detail rest picked
    else picked

/-- The `picked` list produced from the candidate ids. -/
def pickRecords (detail : Nat → FetchOutcome) (ids : List Nat) : List DetailRecord :=
  pickLoop detail ids []

/-- The item pushed by the preload loop (sketch.js lines 141-145):
`{ ...base, img, x: 0, y: 0, w: 0, h: 0 }`. -/
def recordTile (img : Option Nat) (base : DetailRecord) : Tile :=
  { objectID := base.objectID, title := base.title, artist := base.artist,
    date := base.date, imageUrl := base.imageUrl, img := img,
    x := 0, y := 0, w := 0, h := 0 }

/-- The preload loop of `searchMet` (sketch.js lines 136-148) with
`loadP5Image` (lines 184-193) abstracted to `loadImg`: the p5 callback
wrapper always resolves, with `none` on a load failure, and every record is
pushed exactly once in order. -/
def preload (loadImg : String → Option Nat) (recs : List DetailRecord) : List Tile :=
  recs.map (fun base => recordTile (loadImg base.imageUrl) base)

/-- Observed outcome of the initial search request (sketch.js lines 108-112):
`throwErr m` is a transport rejection or JSON parse failure raising message
`m`; `httpErr code` is a response with `!res.ok`; `ok ids` is a parsed body,
with an absent `objectIDs` field modelled as `[]` (line 112's `|| []`). -/
inductive SearchResp where
  | throwErr (msg : String)
  | httpErr (code : Nat)
  | ok (objectIDs : List Nat)

/-- The external behaviour one run of `searchMet` observes. -/
structure Env where
  searchResp : SearchResp
  detail : Nat → FetchOutcome
  loadImg : String → Option Nat

/-- The synchronous prefix of `searchMet` before its first `await`
(sketch.js lines 99-102): set `loading`, clear `errMsg` and `items`, set the
status text. -/
def searchStart (query : String) (s : SessionState) : SessionState :=
  { s with
      loading := true
      errMsg := none
      items := []
      status := "searching met for \"" ++ query ++ "\"…" }

/-- `searchMet` (sketch.js lines 98-158) as a state transformer: the final
session state after the whole async function (including its `catch` and
`finally`) has run against the observed environment. -/
def searchMet (env : Env) (query : String) (s : SessionState) : SessionState :=
  let s1 := searchStart query s
  match env.searchResp with
  | .throwErr m =>
      { s1 with errMsg := some m, status := "error: " ++ m, loading := false }
  | .httpErr code =>
      let m := "search http " ++ toString code
      { s1 with errMsg := some m, status := "error: " ++ m, loading := false }
  | .ok ids =>
      if ids.length = 0 then
        { s1 with status := "no matches for \"" ++ query ++ "\".", loading := false }
      else
        let picked := pickRecords env.detail ids
        if picked.length = 0 then
          { s1 with
              status := "found stuff but none had usable images. try another keyword."
              loading := false }
        else
          let laid := layoutGrid (preload env.loadImg picked)
          let n := laid.length
          { s1 with
              items := laid
              status := "loaded " ++ toString n ++ " images for \"" ++ query ++
                "\". hover for info, click to open met page."
              loading := false }

/-- `needle` occurs as a substring of `hay`. -/
def strContains (hay needle : String) : Prop :=
  ∃ pre post, hay = pre ++ needle ++ post

/-- A fixed tile used for concrete instances. -/
def sampleTile : Tile :=
  { objectID := 1, title := "t", artist := "a", date := "", imageUrl := "u",
    img := none, x := 0, y := 0, w := 0, h := 0 }

/-- A fixed detail record used for concrete instances. -/
def sampleRecord : DetailRecord :=
  { objectID := 2, title := "t2", artist := "a2", date := "1900", imageUrl := "u2" }

/-- `ceil(n / 6)` over `ℚ` agrees with the rounding-up natural division. -/
theorem rowsOf_eq (n : Nat) : rowsOf n = (n + 5) / 6 := by
  have h6 : (0:ℚ) < 6 := by norm_num
  have ha : (n:ℚ) / 6 ≤ (rowsOf n : ℚ) := by
    simpa [rowsOf, GRID_COLS] using Nat.le_ceil ((n:ℚ) / 6)
  have ha2 : n ≤ 6 * rowsOf n := by
    have h := (div_le_iff₀ h6).mp ha
    have h2 : (n:ℚ) ≤ ((6 * rowsOf n : Nat) : ℚ) := by push_cast; linarith
    exact_mod_cast h2
  have hb : rowsOf n ≤ (n + 5) / 6 := by
    have hle : (n:ℚ) / 6 ≤ (((n + 5) / 6 : Nat) : ℚ) := by
      rw [div_le_iff₀ h6]
      have hn : n ≤ 6 * ((n + 5) / 6) := by omega
      have h2 : (n : ℚ) ≤ ((6 * ((n + 5) / 6) : Nat) : ℚ) := by exact_mod_cast hn
      push_cast at h2 ⊢
      linarith
    have h := Nat.ceil_le.mpr hle
    simpa [rowsOf, GRID_COLS] using h
  omega

/-- The layout loop does not change the number of items. -/
theorem layoutAux_length (n k : Nat) (l : List Tile) :
    (layoutAux n k l).length = l.length := by
  induction l generalizing k with
  | nil => rfl
  | cons a t ih => simp [layoutAux, ih]

/-- `layoutGrid` does not change the number of items. -/
theorem layoutGrid_length (items : List Tile) :
    (layoutGrid items).length = items.length :=
  layoutAux_length items.length 0 items

/-- Element `j` of the layout loop started at index `k` is the original
element with the bounds of grid position `k + j`. -/
theorem layoutAux_get (n : Nat) (l : List Tile) :
    ∀ (k j : Nat) (h : j < l.length) (h2 : j < (layoutAux n k l).length),
      (layoutAux n k l).get ⟨j, h2⟩ = place n (k + j) (l.get ⟨j, h⟩) := by
  induction l with
  | nil => intro k j h _; exact absurd h (Nat.not_lt_zero j)
  | cons a t ih =>
    intro k j h h2
    cases j with
    | zero => rfl
    | succ m =>
      have hm : m < t.length := Nat.lt_of_succ_lt_succ h
      have hm2 : m < (layoutAux n (k + 1) t).length := by
        rw [layoutAux_length]; exact hm
      have step : (layoutAux n k (a :: t)).get ⟨m + 1, h2⟩
          = (layoutAux n (k + 1) t).get ⟨m, hm2⟩ := rfl
      rw [step, ih (k + 1) m hm hm2]
      have harith : k + 1 + m = k + (m + 1) := by omega
      rw [harith]
      rfl

/-- Element `j` of `layoutGrid` is the original element with the bounds of
grid position `j`. -/
theorem layoutGrid_get (items : List Tile) (j : Nat)
    (h : j < items.length) (h2 : j < (layoutGrid items).length) :
    (layoutGrid items).get ⟨j, h2⟩ = place items.length j (items.get ⟨j, h⟩) := by
  have := layoutAux_get items.length items 0 j h h2
  simpa using this

/-- The common tile width evaluates to 135. -/
theorem tileW_eq : tileW = 135 := by
  norm_num [tileW, canvasW, PAD, GAP, GRID_COLS]

/-- At least one row as soon as there is one item. -/
theorem rowsOf_pos (n : Nat) (h : 1 ≤ n) : 1 ≤ rowsOf n := by
  rw [rowsOf_eq]; omega

/-- The row index of an in-range item index is an in-range row. -/
theorem div_lt_rowsOf (n i : Nat) (h : i < n) : i / GRID_COLS < rowsOf n := by
  rw [rowsOf_eq]
  simp only [GRID_COLS]
  omega

/-- Counts up to 312 need at most 52 rows. -/
theorem rowsOf_le_52 (n : Nat) (h : n ≤ 312) : rowsOf n ≤ 52 := by
  rw [rowsOf_eq]; omega

/-- Closed form of the tile height for a non-empty layout. -/
theorem tileH_eq (n : Nat) (h : 1 ≤ n) : tileH n = 530 / (rowsOf n : ℚ) - 10 := by
  have hr : 1 ≤ rowsOf n := rowsOf_pos n h
  have hr0 : ((rowsOf n : ℚ)) ≠ 0 := by
    exact_mod_cast Nat.pos_iff_ne_zero.mp hr
  rw [tileH, canvasH, PAD, GAP]
  field_simp
  ring

/-- The vertical stride `tileH + GAP` is positive for a non-empty layout. -/
theorem stride_pos (n : Nat) (h : 1 ≤ n) : 0 < tileH n + GAP := by
  have hr : 1 ≤ rowsOf n := rowsOf_pos n h
  have hrq : (0 : ℚ) < (rowsOf n : ℚ) := by exact_mod_cast hr
  rw [tileH_eq n h, GAP]
  have : (0 : ℚ) < 530 / (rowsOf n : ℚ) := by positivity
  linarith

/-- Horizontal bounds of every grid cell: inside `[PAD, canvasW - PAD]`. -/
theorem tileX_bounds (i : Nat) : 20 ≤ tileX i ∧ tileX i + tileW ≤ 880 := by
  have hc : i % GRID_COLS ≤ 5 := by
    simp only [GRID_COLS]
    omega
  have hcq : ((i % GRID_COLS : Nat) : ℚ) ≤ 5 := by exact_mod_cast hc
  have hcq0 : (0 : ℚ) ≤ ((i % GRID_COLS : Nat) : ℚ) := by positivity
  rw [tileX, tileW_eq, PAD, GAP]
  constructor
  · nlinarith
  · nlinarith

/-- Vertical bounds of every in-range grid cell: inside `[PAD, canvasH - PAD]`. -/
theorem tileY_bounds (n i : Nat) (h : i < n) :
    20 ≤ tileY n i ∧ tileY n i + tileH n ≤ 540 := by
  have h1n : 1 ≤ n := by omega
  have hrow : i / GRID_COLS < rowsOf n := div_lt_rowsOf n i h
  have hrowq : ((i / GRID_COLS : Nat) : ℚ) + 1 ≤ (rowsOf n : ℚ) := by
    exact_mod_cast hrow
  have hrow0 : (0 : ℚ) ≤ ((i / GRID_COLS : Nat) : ℚ) := by positivity
  have hr : 1 ≤ rowsOf n := rowsOf_pos n h1n
  have hrq : (0 : ℚ) < (rowsOf n : ℚ) := by exact_mod_cast hr
  have hg : tileH n + GAP = 530 / (rowsOf n : ℚ) := by
    rw [tileH_eq n h1n, GAP]; ring
  have hgpos : (0 : ℚ) < 530 / (rowsOf n : ℚ) := by positivity
  have hcancel : (rowsOf n : ℚ) * (530 / (rowsOf n : ℚ)) = 530 := by
    field_simp
  constructor
  · rw [tileY, PAD]
    nlinarith [mul_nonneg hrow0 (le_of_lt hgpos), hg]
  · rw [tileY, PAD]
    have hmul : (((i / GRID_COLS : Nat) : ℚ) + 1) * (530 / (rowsOf n : ℚ))
        ≤ (rowsOf n : ℚ) * (530 / (rowsOf n : ℚ)) :=
      mul_le_mul_of_nonneg_right hrowq (le_of_lt hgpos)
    rw [hcancel] at hmul
    have hexp : (((i / GRID_COLS : Nat) : ℚ) + 1) * (530 / (rowsOf n : ℚ))
        = ((i / GRID_COLS : Nat) : ℚ) * (530 / (rowsOf n : ℚ))
          + 530 / (rowsOf n : ℚ) := by ring
    rw [hexp] at hmul
    have htH : tileH n = 530 / (rowsOf n : ℚ) - 10 := by
      have hGAP : GAP = 10 := rfl
      rw [← hg, hGAP]; ring
    rw [hg, htH]
    linarith

/-- C1: for every non-empty tile list, `layoutGrid` assigns tile `i` (0-based)
the rectangle `x = PAD + (i mod 6) * (tileWidth + GAP)`,
`y = PAD + (i div 6) * (tileHeight + GAP)` with
`tileWidth = (900 - 2*20 - 10*(6-1))/6` and
`tileHeight = (560 - 2*20 - 10*(rows-1))/rows`, `rows = ceil(count/6)`,
every tile (including the partial last row) getting the same width and
height; for 18 tiles there are 3 rows and every tile has width 135 and
height 500/3. -/
theorem C1_layout_formula (items : List Tile) (i : Nat)
    (h : i < (layoutGrid items).length) :
    ((layoutGrid items).get ⟨i, h⟩).w = (900 - 2 * 20 - 10 * (6 - 1)) / 6
    ∧ ((layoutGrid items).get ⟨i, h⟩).h
        = (560 - 2 * 20 - 10 * ((⌈(items.length : ℚ) / 6⌉₊ : ℚ) - 1))
            / (⌈(items.length : ℚ) / 6⌉₊ : ℚ)
    ∧ ((layoutGrid items).get ⟨i, h⟩).x
        = 20 + ((i % 6 : Nat) : ℚ) * ((900 - 2 * 20 - 10 * (6 - 1)) / 6 + 10)
    ∧ ((layoutGrid items).get ⟨i, h⟩).y
        = 20 + ((i / 6 : Nat) : ℚ)
            * ((560 - 2 * 20 - 10 * ((⌈(items.length : ℚ) / 6⌉₊ : ℚ) - 1))
                 / (⌈(items.length : ℚ) / 6⌉₊ : ℚ) + 10)
    ∧ (items.length = 18 →
        ⌈(items.length : ℚ) / 6⌉₊ = 3
        ∧ ((layoutGrid items).get ⟨i, h⟩).w = 135
        ∧ ((layoutGrid items).get ⟨i, h⟩).h = 500 / 3) := by
  have h0 : i < items.length := by
    rwa [layoutGrid_length] at h
  have hget := layoutGrid_get items i h0 h
  have hrows : rowsOf items.length = ⌈(items.length : ℚ) / 6⌉₊ := by
    simp [rowsOf, GRID_COLS]
  have hw : ((layoutGrid items).get ⟨i, h⟩).w = (900 - 2 * 20 - 10 * (6 - 1)) / 6 := by
    rw [hget]
    simp only [place, tileW, canvasW, PAD, GAP, GRID_COLS]
    norm_num
  have hh : ((layoutGrid items).get ⟨i, h⟩).h
      = (560 - 2 * 20 - 10 * ((⌈(items.length : ℚ) / 6⌉₊ : ℚ) - 1))
          / (⌈(items.length : ℚ) / 6⌉₊ : ℚ) := by
    rw [hget]
    simp only [place, tileH, canvasH, PAD, GAP, hrows]
    norm_num
  have hx : ((layoutGrid items).get ⟨i, h⟩).x
      = 20 + ((i % 6 : Nat) : ℚ) * ((900 - 2 * 20 - 10 * (6 - 1)) / 6 + 10) := by
    rw [hget]
    simp only [place, tileX, tileW, canvasW, PAD, GAP, GRID_COLS]
    norm_num
  have hy : ((layoutGrid items).get ⟨i, h⟩).y
      = 20 + ((i / 6 : Nat) : ℚ)
          * ((560 - 2 * 20 - 10 * ((⌈(items.length : ℚ) / 6⌉₊ : ℚ) - 1))
               / (⌈(items.length : ℚ) / 6⌉₊ : ℚ) + 10) := by
    rw [hget]
    simp only [place, tileY, tileH, canvasH, PAD, GAP, GRID_COLS, hrows]
    norm_num
  refine ⟨hw, hh, hx, hy, ?_⟩
  intro h18
  have hr3 : ⌈(items.length : ℚ) / 6⌉₊ = 3 := by
    rw [← hrows, h18, rowsOf_eq]
  refine ⟨hr3, ?_, ?_⟩
  · rw [hw]; norm_num
  · rw [hh, hr3]; norm_num

/-- Witness for C1 at a concrete 18-tile list and index 7. -/
theorem C1_layout_formula_witness :
    ((layoutGrid (List.replicate 18 sampleTile)).get
        ⟨7, by rw [layoutGrid_length]; simp⟩).w = 135
    ∧ ((layoutGrid (List.replicate 18 sampleTile)).get
        ⟨7, by rw [layoutGrid_length]; simp⟩).h = 500 / 3 := by
  have hlt : 7 < (layoutGrid (List.replicate 18 sampleTile)).length := by
    rw [layoutGrid_length]; simp
  have hc := C1_layout_formula (List.replicate 18 sampleTile) 7 hlt
  have h18 : (List.replicate 18 sampleTile).length = 18 := by simp
  exact ⟨(hc.2.2.2.2 h18).2.1, (hc.2.2.2.2 h18).2.2⟩

/-- Projection of the loop-body assignment: x. -/
theorem place_x (n i : Nat) (it : Tile) : (place n i it).x = tileX i := rfl

/-- Projection of the loop-body assignment: y. -/
theorem place_y (n i : Nat) (it : Tile) : (place n i it).y = tileY n i := rfl

/-- Projection of the loop-body assignment: w. -/
theorem place_w (n i : Nat) (it : Tile) : (place n i it).w = tileW := rfl

/-- Projection of the loop-body assignment: h. -/
theorem place_h (n i : Nat) (it : Tile) : (place n i it).h = tileH n := rfl

/-- The vertical stride in closed form. -/
theorem stride_eq (n : Nat) (h : 1 ≤ n) :
    tileH n + GAP = 530 / (rowsOf n : ℚ) := by
  have hGAP : GAP = 10 := rfl
  rw [tileH_eq n h, hGAP]; ring

/-- Up to 312 items the common tile height is positive. -/
theorem tileH_pos (n : Nat) (h1 : 1 ≤ n) (h2 : n ≤ 312) : 0 < tileH n := by
  have hr1 : 1 ≤ rowsOf n := rowsOf_pos n h1
  have hr52 : rowsOf n ≤ 52 := rowsOf_le_52 n h2
  have hq1 : (1 : ℚ) ≤ (rowsOf n : ℚ) := by exact_mod_cast hr1
  have hq52 : ((rowsOf n : ℚ)) ≤ 52 := by exact_mod_cast hr52
  have hpos : (0 : ℚ) < (rowsOf n : ℚ) := by linarith
  rw [tileH_eq n h1]
  have h10 : (10 : ℚ) < 530 / (rowsOf n : ℚ) := by
    rw [lt_div_iff₀ hpos]; linarith
  linarith

/-- Two cells in distinct columns have horizontally disjoint closed spans. -/
theorem horiz_sep (i j : Nat) (hij : i % GRID_COLS < j % GRID_COLS) (p : ℚ)
    (h1 : p ≤ tileX i + tileW) (h2 : tileX j ≤ p) : False := by
  have hq : ((i % GRID_COLS : Nat) : ℚ) + 1 ≤ ((j % GRID_COLS : Nat) : ℚ) := by
    exact_mod_cast hij
  rw [tileX, tileW_eq, PAD, GAP] at h1 h2
  nlinarith

/-- Two in-range cells in distinct rows have vertically disjoint closed spans. -/
theorem vert_sep (n i j : Nat) (hn : 1 ≤ n) (hij : i / GRID_COLS < j / GRID_COLS)
    (q : ℚ) (h1 : q ≤ tileY n i + tileH n) (h2 : tileY n j ≤ q) : False := by
  have hq : ((i / GRID_COLS : Nat) : ℚ) + 1 ≤ ((j / GRID_COLS : Nat) : ℚ) := by
    exact_mod_cast hij
  have hr : 1 ≤ rowsOf n := rowsOf_pos n hn
  have hrq : (0 : ℚ) < (rowsOf n : ℚ) := by exact_mod_cast hr
  have hg : tileH n + GAP = 530 / (rowsOf n : ℚ) := stride_eq n hn
  have hgpos : (0 : ℚ) < 530 / (rowsOf n : ℚ) := by positivity
  have htH : tileH n = 530 / (rowsOf n : ℚ) - 10 := by
    have hGAP : GAP = 10 := rfl
    rw [← hg, hGAP]; ring
  rw [tileY, PAD, hg, htH] at h1
  rw [tileY, PAD, hg] at h2
  have hmul : (((i / GRID_COLS : Nat) : ℚ) + 1) * (530 / (rowsOf n : ℚ))
      ≤ ((j / GRID_COLS : Nat) : ℚ) * (530 / (rowsOf n : ℚ)) :=
    mul_le_mul_of_nonneg_right hq (le_of_lt hgpos)
  nlinarith

/-- C2 counterexample: the claim quantifies over every tile count `N ≥ 1`,
but at `N = 313` (rows = 53) the uniform tile height is
`(560 - 40 - 10*52)/53 = 0`, which is not positive. -/
theorem C2_counterexample :
    ¬ ∀ (items : List Tile) (j : Nat) (hj : j < (layoutGrid items).length),
        1 ≤ items.length → 0 < ((layoutGrid items).get ⟨j, hj⟩).h := by
  intro hall
  have hn : (List.replicate 313 sampleTile).length = 313 := by
    rw [List.length_replicate]
  have hlen0 : (0 : Nat) < (List.replicate 313 sampleTile).length := by
    rw [hn]; norm_num
  have hlen : (0 : Nat) < (layoutGrid (List.replicate 313 sampleTile)).length := by
    rw [layoutGrid_length, hn]; norm_num
  have hpos := hall (List.replicate 313 sampleTile) 0 hlen (by rw [hn]; norm_num)
  rw [layoutGrid_get (List.replicate 313 sampleTile) 0 hlen0 hlen, place_h] at hpos
  rw [hn] at hpos
  have h313 : tileH 313 = 0 := by
    have hr : rowsOf 313 = 53 := by rw [rowsOf_eq]
    rw [tileH, hr, canvasH, PAD, GAP]
    norm_num
  rw [h313] at hpos
  exact absurd hpos (lt_irrefl 0)

/-- C2 (amended): for every tile count `1 ≤ N ≤ 312` — in particular every
count reachable in the program, which caps the list at `MAX_ITEMS = 18` —
`layoutGrid` produces exactly `N` rectangles, each with positive width and
height, and every rectangle lies within
`[PAD, canvasW - PAD] × [PAD, canvasH - PAD]`. -/
theorem C2_amended_bounds (items : List Tile)
    (h1 : 1 ≤ items.length) (h2 : items.length ≤ 312) :
    (layoutGrid items).length = items.length
    ∧ ∀ (j : Nat) (hj : j < (layoutGrid items).length),
        0 < ((layoutGrid items).get ⟨j, hj⟩).w
        ∧ 0 < ((layoutGrid items).get ⟨j, hj⟩).h
        ∧ 20 ≤ ((layoutGrid items).get ⟨j, hj⟩).x
        ∧ ((layoutGrid items).get ⟨j, hj⟩).x + ((layoutGrid items).get ⟨j, hj⟩).w
            ≤ 900 - 20
        ∧ 20 ≤ ((layoutGrid items).get ⟨j, hj⟩).y
        ∧ ((layoutGrid items).get ⟨j, hj⟩).y + ((layoutGrid items).get ⟨j, hj⟩).h
            ≤ 560 - 20 := by
  refine ⟨layoutGrid_length items, ?_⟩
  intro j hj
  have hj0 : j < items.length := by rwa [layoutGrid_length] at hj
  rw [layoutGrid_get items j hj0 hj, place_x, place_y, place_w, place_h]
  have hxb := tileX_bounds j
  have hyb := tileY_bounds items.length j hj0
  refine ⟨?_, tileH_pos items.length h1 h2, hxb.1, ?_, hyb.1, ?_⟩
  · rw [tileW_eq]; norm_num
  · have := hxb.2; linarith
  · have := hyb.2; linarith

/-- Witness for C2 (amended) at a concrete 2-tile list. -/
theorem C2_amended_bounds_witness :
    (1 ≤ (List.replicate 2 sampleTile).length
      ∧ (List.replicate 2 sampleTile).length ≤ 312)
    ∧ (layoutGrid (List.replicate 2 sampleTile)).length
        = (List.replicate 2 sampleTile).length := by
  refine ⟨⟨by simp, by simp⟩, ?_⟩
  exact (C2_amended_bounds (List.replicate 2 sampleTile) (by simp) (by simp)).1

/-- C3: tiles from one `layoutGrid` call never overlap: distinct indices get
closed rectangles with empty intersection — no point `(p, q)` lies in both. -/
theorem C3_no_overlap (items : List Tile) (i j : Nat)
    (hi : i < (layoutGrid items).length) (hj : j < (layoutGrid items).length)
    (hne : i ≠ j) (p q : ℚ) :
    ¬ (hits ((layoutGrid items).get ⟨i, hi⟩) p q
       ∧ hits ((layoutGrid items).get ⟨j, hj⟩) p q) := by
  rintro ⟨hA, hB⟩
  have hi0 : i < items.length := by rwa [layoutGrid_length] at hi
  have hj0 : j < items.length := by rwa [layoutGrid_length] at hj
  have hn : 1 ≤ items.length := by omega
  rw [layoutGrid_get items i hi0 hi] at hA
  rw [layoutGrid_get items j hj0 hj] at hB
  rw [hits, place_x, place_y, place_w, place_h] at hA hB
  rcases Nat.lt_trichotomy (i % GRID_COLS) (j % GRID_COLS) with hc | hc | hc
  · exact horiz_sep i j hc p hA.2.1 hB.1
  · rcases Nat.lt_trichotomy (i / GRID_COLS) (j / GRID_COLS) with hr | hr | hr
    · exact vert_sep items.length i j hn hr q hA.2.2.2 hB.2.2.1
    · apply hne
      simp only [GRID_COLS] at hc hr
      omega
    · exact vert_sep items.length j i hn hr q hB.2.2.2 hA.2.2.1
  · exact horiz_sep j i hc p hB.2.1 hA.1

/-- Witness for C3 at a concrete 2-tile list, indices 0 and 1, point (40, 40). -/
theorem C3_no_overlap_witness :
    (0 : Nat) ≠ 1
    ∧ ¬ (hits ((layoutGrid (List.replicate 2 sampleTile)).get
            ⟨0, by rw [layoutGrid_length]; simp⟩) 40 40
         ∧ hits ((layoutGrid (List.replicate 2 sampleTile)).get
            ⟨1, by rw [layoutGrid_length]; simp⟩) 40 40) := by
  refine ⟨by decide, ?_⟩
  exact C3_no_overlap (List.replicate 2 sampleTile) 0 1
    (by rw [layoutGrid_length]; simp) (by rw [layoutGrid_length]; simp)
    (by decide) 40 40

/-- `getHoveredItem` on the empty list. -/
theorem getHoveredItem_nil (mx my : ℚ) : getHoveredItem [] mx my = none := rfl

/-- `getHoveredItem` on a non-empty list: one loop iteration. -/
theorem getHoveredItem_cons (a : Tile) (rest : List Tile) (mx my : ℚ) :
    getHoveredItem (a :: rest) mx my
      = if hits a mx my then some a else getHoveredItem rest mx my := rfl

/-- C4: `getHoveredItem` returns a tile iff the pointer lies in some tile's
closed rectangle (inclusive bounds); the returned tile is the first such tile
in stored order, every earlier tile missing the pointer; in particular a
point contained in no tile rectangle yields none. -/
theorem C4_hover_first_hit (items : List Tile) (mx my : ℚ) :
    ((getHoveredItem items mx my).isSome ↔ ∃ it ∈ items, hits it mx my)
    ∧ ∀ t, getHoveredItem items mx my = some t →
        hits t mx my
        ∧ ∃ pre post, items = pre ++ t :: post ∧ ∀ u ∈ pre, ¬ hits u mx my := by
  induction items with
  | nil =>
    refine ⟨?_, ?_⟩
    · simp [getHoveredItem_nil]
    · intro t ht
      simp [getHoveredItem_nil] at ht
  | cons a rest ih =>
    by_cases ha : hits a mx my
    · refine ⟨?_, ?_⟩
      · rw [getHoveredItem_cons, if_pos ha]
        simp only [Option.isSome_some]
        exact iff_of_true trivial ⟨a, List.mem_cons_self a rest, ha⟩
      · intro t ht
        rw [getHoveredItem_cons, if_pos ha, Option.some.injEq] at ht
        subst ht
        exact ⟨ha, [], rest, rfl, by intro u hu; simp at hu⟩
    · rw [getHoveredItem_cons, if_neg ha]
      refine ⟨?_, ?_⟩
      · rw [ih.1]
        constructor
        · rintro ⟨it, hmem, hit⟩
          exact ⟨it, List.mem_cons_of_mem a hmem, hit⟩
        · rintro ⟨it, hmem, hit⟩
          rcases List.mem_cons.mp hmem with rfl | hmem2
          · exact absurd hit ha
          · exact ⟨it, hmem2, hit⟩
      · intro t ht
        obtain ⟨hhit, pre, post, heq, hpre⟩ := ih.2 t ht
        refine ⟨hhit, a :: pre, post, by rw [heq]; simp, ?_⟩
        intro u hu
        rcases List.mem_cons.mp hu with rfl | hu2
        · exact ha
        · exact hpre u hu2

/-- Witness for C4: a single zero-bounds tile is hit at the origin, so the
scan returns it. -/
theorem C4_hover_first_hit_witness :
    (getHoveredItem [sampleTile] 0 0).isSome := by
  refine (C4_hover_first_hit [sampleTile] 0 0).1.mpr ⟨sampleTile, ?_, ?_⟩
  · simp
  · refine ⟨?_, ?_, ?_, ?_⟩ <;> norm_num [sampleTile]

/-- A record accepted by `fetchObject` always carries a non-empty image URL. -/
theorem fetchObject_imageUrl (detail : Nat → FetchOutcome) (id : Nat)
    (r : DetailRecord) (h : fetchObject detail id = some r) : r.imageUrl ≠ "" := by
  rw [fetchObject] at h
  cases hd : detail id with
  | fail => rw [hd] at h; simp at h
  | ok d =>
    rw [hd] at h
    by_cases himg : d.primaryImageSmall = ""
    · simp [himg] at h
    · simp only [himg, if_false] at h
      rw [Option.some.injEq] at h
      subst h
      exact himg

/-- The detail loop equals "accepted records in candidate order, truncated to
the remaining budget". -/
theorem pickLoop_eq (detail : Nat → FetchOutcome) :
    ∀ (ids : List Nat) (acc : List DetailRecord), acc.length ≤ MAX_ITEMS →
      pickLoop detail ids acc
        = acc ++ (ids.filterMap (fetchObject detail)).take (MAX_ITEMS - acc.length) := by
  intro ids
  induction ids with
  | nil => intro acc _; simp [pickLoop]
  | cons id rest ih =>
    intro acc hacc
    by_cases hlt : acc.length < MAX_ITEMS
    · cases hf : fetchObject detail id with
      | none =>
        have hstep : pickLoop detail (id :: rest) acc = pickLoop detail rest acc := by
          rw [pickLoop, if_pos hlt, hf]
        rw [hstep, ih acc hacc, List.filterMap_cons_none hf]
      | some r =>
        have hstep : pickLoop detail (id :: rest) acc
            = pickLoop detail rest (acc ++ [r]) := by
          rw [pickLoop, if_pos hlt, hf]
        have hlen : (acc ++ [r]).length ≤ MAX_ITEMS := by
          simp only [List.length_append, List.length_cons, List.length_nil]
          omega
        rw [hstep, ih (acc ++ [r]) hlen, List.filterMap_cons_some hf]
        obtain ⟨k, hk⟩ : ∃ k, MAX_ITEMS - acc.length = k + 1 :=
          ⟨MAX_ITEMS - acc.length - 1, by omega⟩
        have hk2 : MAX_ITEMS - (acc ++ [r]).length = k := by
          simp only [List.length_append, List.length_cons, List.length_nil]
          omega
        rw [hk, hk2, List.take_succ_cons]
        simp
    · have hstep : pickLoop detail (id :: rest) acc = acc := by
        rw [pickLoop, if_neg hlt]
      have heq : acc.length = MAX_ITEMS := by omega
      rw [hstep, heq]
      simp

/-- C5: for every candidate list and every detail-fetch behaviour, `picked`
is the order-preserving filter of the candidates truncated at `MAX_ITEMS`:
it has length at most 18 and contains no record with an empty image URL. -/
theorem C5_pick_invariants (detail : Nat → FetchOutcome) (ids : List Nat) :
    pickRecords detail ids = (ids.filterMap (fetchObject detail)).take MAX_ITEMS
    ∧ (pickRecords detail ids).length ≤ MAX_ITEMS
    ∧ ∀ r ∈ pickRecords detail ids, r.imageUrl ≠ "" := by
  have heq : pickRecords detail ids
      = (ids.filterMap (fetchObject detail)).take MAX_ITEMS := by
    have h := pickLoop_eq detail ids [] (by simp [MAX_ITEMS])
    simpa [pickRecords] using h
  refine ⟨heq, ?_, ?_⟩
  · rw [heq]
    exact List.length_take_le MAX_ITEMS _
  · intro r hr
    rw [heq] at hr
    have hr2 : r ∈ ids.filterMap (fetchObject detail) :=
      List.take_subset MAX_ITEMS _ hr
    obtain ⟨id, _, hf⟩ := List.mem_filterMap.mp hr2
    exact fetchObject_imageUrl detail id r hf

/-- Witness for C5 at a concrete behaviour where every detail fetch fails. -/
theorem C5_pick_invariants_witness :
    pickRecords (fun _ => FetchOutcome.fail) [1, 2, 3]
      = (([1, 2, 3] : List Nat).filterMap
          (fetchObject (fun _ => FetchOutcome.fail))).take MAX_ITEMS :=
  (C5_pick_invariants (fun _ => FetchOutcome.fail) [1, 2, 3]).1

/-- C6: the preload loop returns exactly one tile per input record, in input
order; tile `i` carries record `i`'s fields with the loader's answer for its
image URL, and bounds zero — a failed load keeps the record with `img = none`
instead of dropping it. -/
theorem C6_preload_total (loadImg : String → Option Nat) (recs : List DetailRecord) :
    (preload loadImg recs).length = recs.length
    ∧ ∀ (i : Nat) (h : i < recs.length) (h2 : i < (preload loadImg recs).length),
        (preload loadImg recs).get ⟨i, h2⟩
            = recordTile (loadImg ((recs.get ⟨i, h⟩).imageUrl)) (recs.get ⟨i, h⟩)
        ∧ (loadImg ((recs.get ⟨i, h⟩).imageUrl) = none →
            ((preload loadImg recs).get ⟨i, h2⟩).img = none) := by
  refine ⟨by simp [preload], ?_⟩
  intro i h h2
  have hget : (preload loadImg recs).get ⟨i, h2⟩
      = recordTile (loadImg ((recs.get ⟨i, h⟩).imageUrl)) (recs.get ⟨i, h⟩) := by
    simp [preload, List.get_map]
  refine ⟨hget, ?_⟩
  intro hnone
  rw [hget, hnone]
  rfl

/-- Witness for C6 at a concrete one-record list whose image load fails. -/
theorem C6_preload_total_witness :
    (preload (fun _ => none) [sampleRecord]).length = [sampleRecord].length
    ∧ (0 : Nat) < [sampleRecord].length :=
  ⟨(C6_preload_total (fun _ => none) [sampleRecord]).1, by simp⟩

/-- C7: when the initial search request answers a non-ok status, `searchMet`
ends in the Error phase with `loading` false, the thrown message
`search http <code>` recorded, an empty tile list, and (for status 500) an
error message containing `http 500`; the phase never reaches Ready. -/
theorem C7_search_http_error (env : Env) (query : String) (s : SessionState)
    (code : Nat) (h : env.searchResp = SearchResp.httpErr code) :
    phaseOf (searchMet env query s) = Phase.Error
    ∧ (searchMet env query s).loading = false
    ∧ (searchMet env query s).errMsg = some ("search http " ++ toString code)
    ∧ (searchMet env query s).items = []
    ∧ (code = 500 →
        ∃ m, (searchMet env query s).errMsg = some m ∧ strContains m "http 500") := by
  have hred : searchMet env query s
      = { searchStart query s with
            errMsg := some ("search http " ++ toString code)
            status := "error: " ++ ("search http " ++ toString code)
            loading := false } := by
    rw [searchMet, h]
  refine ⟨?_, ?_, ?_, ?_, ?_⟩
  · rw [phaseOf, hred]
    rfl
  · rw [hred]
  · rw [hred]
  · rw [hred]
    rfl
  · intro h500
    subst h500
    refine ⟨"search http " ++ toString 500, by rw [hred], "search ", "", ?_⟩
    rfl

/-- Witness for C7 at a concrete environment answering HTTP 500. -/
theorem C7_search_http_error_witness :
    (searchMet ⟨SearchResp.httpErr 500, fun _ => FetchOutcome.fail, fun _ => none⟩
        "cat" ⟨false, none, [], ""⟩).items = []
    ∧ phaseOf (searchMet ⟨SearchResp.httpErr 500, fun _ => FetchOutcome.fail,
        fun _ => none⟩ "cat" ⟨false, none, [], ""⟩) = Phase.Error := by
  have h := C7_search_http_error
    ⟨SearchResp.httpErr 500, fun _ => FetchOutcome.fail, fun _ => none⟩
    "cat" ⟨false, none, [], ""⟩ 500 rfl
  exact ⟨h.2.2.2.1, h.1⟩

/-- C8: a successful search with zero candidate identifiers terminates in the
Ready phase — `loading` false, `errMsg` null — with an empty tile list and
the "no matches" status text; it is not an error. -/
theorem C8_no_matches (env : Env) (query : String) (s : SessionState)
    (h : env.searchResp = SearchResp.ok []) :
    (searchMet env query s).loading = false
    ∧ (searchMet env query s).errMsg = none
    ∧ (searchMet env query s).items = []
    ∧ (searchMet env query s).status = "no matches for \"" ++ query ++ "\"."
    ∧ phaseOf (searchMet env query s) = Phase.Ready := by
  have hred : searchMet env query s
      = { searchStart query s with
            status := "no matches for \"" ++ query ++ "\"."
            loading := false } := by
    rw [searchMet, h]
    rfl
  refine ⟨by rw [hred], by rw [hred]; rfl, by rw [hred]; rfl, by rw [hred], ?_⟩
  rw [phaseOf, hred]
  rfl

/-- Witness for C8 at a concrete environment answering an empty id list. -/
theorem C8_no_matches_witness :
    (searchMet ⟨SearchResp.ok [], fun _ => FetchOutcome.fail, fun _ => none⟩
        "qqq" ⟨true, some "old", [sampleTile], "x"⟩).items = []
    ∧ phaseOf (searchMet ⟨SearchResp.ok [], fun _ => FetchOutcome.fail,
        fun _ => none⟩ "qqq" ⟨true, some "old", [sampleTile], "x"⟩) = Phase.Ready := by
  have h := C8_no_matches
    ⟨SearchResp.ok [], fun _ => FetchOutcome.fail, fun _ => none⟩
    "qqq" ⟨true, some "old", [sampleTile], "x"⟩ rfl
  exact ⟨h.2.2.1, h.2.2.2.2⟩

/-- C9: a tile still carrying its initial zero bounds is returned by
`getHoveredItem` at the origin — the inclusive test makes a zero-size
rectangle contain its corner — so right after the preload loop the first tile
is hoverable and clickable at `(0, 0)` whatever the session flags are
(`mousePressed` has no loading/phase guard), even though `(0, 0)` lies in the
outer padding of any laid-out grid and hits no laid-out tile. -/
theorem C9_zero_bounds_hover (loadImg : String → Option Nat)
    (recs : List DetailRecord) (s : SessionState)
    (hne : recs ≠ []) (hs : s.items = preload loadImg recs) :
    ∃ t, (preload loadImg recs).head? = some t
      ∧ t.x = 0 ∧ t.y = 0 ∧ t.w = 0 ∧ t.h = 0
      ∧ getHoveredItem (preload loadImg recs) 0 0 = some t
      ∧ mousePressed s 0 0
          = some ("https://www.metmuseum.org/art/collection/search/"
              ++ toString t.objectID)
      ∧ ∀ it ∈ layoutGrid (preload loadImg recs), ¬ hits it 0 0 := by
  obtain ⟨b, rest, rfl⟩ := List.exists_cons_of_ne_nil hne
  refine ⟨recordTile (loadImg b.imageUrl) b, ?_, rfl, rfl, rfl, rfl, ?_, ?_, ?_⟩
  · simp [preload]
  · have hcons : preload loadImg (b :: rest)
        = recordTile (loadImg b.imageUrl) b :: preload loadImg rest := by
      simp [preload]
    rw [hcons, getHoveredItem_cons, if_pos]
    exact ⟨le_refl 0, by norm_num [recordTile], le_refl 0, by norm_num [recordTile]⟩
  · have hcons : preload loadImg (b :: rest)
        = recordTile (loadImg b.imageUrl) b :: preload loadImg rest := by
      simp [preload]
    rw [mousePressed, hs, hcons, getHoveredItem_cons, if_pos]
    exact ⟨le_refl 0, by norm_num [recordTile], le_refl 0, by norm_num [recordTile]⟩
  · intro it hmem hhit
    obtain ⟨⟨j, hj⟩, hget⟩ := List.mem_iff_get.mp hmem
    have hj0 : j < (preload loadImg (b :: rest)).length := by
      rwa [layoutGrid_length] at hj
    rw [layoutGrid_get (preload loadImg (b :: rest)) j hj0 hj] at hget
    have hx : it.x = tileX j := by rw [← hget, place_x]
    have hxb := (tileX_bounds j).1
    have hle : it.x ≤ 0 := hhit.1
    rw [hx] at hle
    linarith

/-- Witness for C9 at a concrete one-record list whose image load fails,
inside a still-loading session. -/
theorem C9_zero_bounds_hover_witness :
    ∃ t, (preload (fun _ => none) [sampleRecord]).head? = some t
      ∧ t.x = 0 ∧ t.y = 0 ∧ t.w = 0 ∧ t.h = 0
      ∧ getHoveredItem (preload (fun _ => none) [sampleRecord]) 0 0 = some t
      ∧ mousePressed ⟨true, none, preload (fun _ => none) [sampleRecord], ""⟩ 0 0
          = some ("https://www.metmuseum.org/art/collection/search/"
              ++ toString t.objectID)
      ∧ ∀ it ∈ layoutGrid (preload (fun _ => none) [sampleRecord]), ¬ hits it 0 0 :=
  C9_zero_bounds_hover (fun _ => none) [sampleRecord]
    ⟨true, none, preload (fun _ => none) [sampleRecord], ""⟩
    (by simp) rfl

/-- C10: `searchMet` empties the tile list in its synchronous prefix, before
any network request is issued, and a search failing at the search step (HTTP
error or thrown transport/parse error) ends with zero tiles whatever the
previous session held — the old grid is never restored. -/
theorem C10_clear_no_rollback (env : Env) (query : String) (s : SessionState) :
    (searchStart query s).items = []
    ∧ (∀ code, env.searchResp = SearchResp.httpErr code →
        (searchMet env query s).items = [])
    ∧ (∀ m, env.searchResp = SearchResp.throwErr m →
        (searchMet env query s).items = []) := by
  refine ⟨rfl, ?_, ?_⟩
  · intro code h
    rw [searchMet, h]
    rfl
  · intro m h
    rw [searchMet, h]
    rfl

/-- Witness for C10: a failing search issued from a populated Ready session
ends with zero tiles. -/
theorem C10_clear_no_rollback_witness :
    (searchStart "cat" ⟨false, none, [sampleTile], "x"⟩).items = []
    ∧ (searchMet ⟨SearchResp.httpErr 503, fun _ => FetchOutcome.fail, fun _ => none⟩
        "cat" ⟨false, none, [sampleTile], "x"⟩).items = [] := by
  have h := C10_clear_no_rollback
    ⟨SearchResp.httpErr 503, fun _ => FetchOutcome.fail, fun _ => none⟩
    "cat" ⟨false, none, [sampleTile], "x"⟩
  exact ⟨h.1, h.2.1 503 rfl⟩
